import Mathlib

/-!
# nrf-dia5: sensor beacon codec, ingestion queue and shadow aggregator

Shallow embedding of

* `sensor_data_adv_update` (src/common/src/sensor_ble/sensor_ble.c),
* `sensor_data_handler` and `sensor_data_worker` (src/concentrator/src/main.c),

over the data declared in src/common/src/sensor_common/sensor_common.h.

Machine integers are natural numbers; a value of a `uintN_t` field is in
range when it is below `2 ^ N`.  Zephyr kernel objects are modelled by their
documented behaviour: a `k_fifo` is a list (put at the tail, get from the
head), `k_malloc` is an oracle that either fails or hands out a block of
unspecified content, `k_uptime_get_32` is the uptime truncated to 32 bits.
-/

namespace NrfDia5

/-! ## Data model (sensor_common.h) -/

/-- Discriminant `SENSOR_TYPE_ERROR = 0` of `sensor_type_t`. -/
def SENSOR_TYPE_ERROR : Nat := 0

/-- Discriminant `SENSOR_TYPE_LIGHT = 1` of `sensor_type_t`. -/
def SENSOR_TYPE_LIGHT : Nat := 1

/-- Manufacturer identifier `COMPANY_ID` of sensor_common.h. -/
def COMPANY_ID : Nat := 0x0059

/-- Record `sensor_data_t`: `uint16_t company_id; uint8_t type;
uint8_t padding_byte; uint32_t timestamp; uint16_t value`. -/
structure sensor_data_t where
  company_id : Nat
  type : Nat
  padding_byte : Nat
  timestamp : Nat
  value : Nat
  deriving DecidableEq, Repr

/-- Every field of the reading fits its C type. -/
def sensor_data_t.inRange (d : sensor_data_t) : Prop :=
  d.company_id < 2 ^ 16 ∧ d.type < 2 ^ 8 ∧ d.padding_byte < 2 ^ 8 ∧
    d.timestamp < 2 ^ 32 ∧ d.value < 2 ^ 16

instance (d : sensor_data_t) : Decidable d.inRange := by
  unfold sensor_data_t.inRange; infer_instance

/-- Byte number `i` (least significant first) of the machine integer `v`. -/
def byte_at (v i : Nat) : Nat := v / 256 ^ i % 256

/-- Value of a little-endian byte string. -/
def le_value : List Nat → Nat
  | [] => 0
  | b :: bs => b + 256 * le_value bs

/-- Size `sizeof(sensor_data_t)`: the fields take 10 bytes and the 4-byte
alignment of `timestamp` rounds the record up to 12. -/
def SIZEOF_SENSOR_DATA : Nat := 12

/-- Object representation of a `sensor_data_t` on the little-endian target
(nRF, ARM EABI): fields at offsets 0, 2, 3, 4 and 8, each least significant
byte first, followed by two tail padding bytes `pad.1`, `pad.2` whose content
the language leaves unspecified. -/
def sensor_data_t.repr (d : sensor_data_t) (pad : Nat × Nat) : List Nat :=
  [byte_at d.company_id 0, byte_at d.company_id 1,
   byte_at d.type 0,
   byte_at d.padding_byte 0,
   byte_at d.timestamp 0, byte_at d.timestamp 1, byte_at d.timestamp 2, byte_at d.timestamp 3,
   byte_at d.value 0, byte_at d.value 1,
   pad.1 % 256, pad.2 % 256]

/-- C library `memcpy(dst, src, n)` on byte lists: the first `n` bytes of
`dst` are replaced by the first `n` bytes of `src`. -/
def memcpy (dst src : List Nat) (n : Nat) : List Nat :=
  src.take n ++ dst.drop n

/-! ## Advertising payload (sensor_ble.c) -/

/-- State touched by `sensor_data_adv_update`: the global buffer
`uint8_t mfg_data[sizeof(sensor_data_t)]`, the manufacturer-data element of
every `bt_le_adv_update_data` call made so far (oldest first), and the number
of `LOG_ERR` lines written. -/
structure AdvState where
  mfg_data : List Nat
  adv_updates : List (List Nat)
  log_err : Nat
  deriving DecidableEq, Repr

/-- Function `sensor_data_adv_update` of sensor_ble.c.  `pad` is the content
of the tail padding of `*data`. -/
def sensor_data_adv_update (data : sensor_data_t) (pad : Nat × Nat) (s : AdvState) : AdvState :=
  let payload_size := 8
  if data.type = SENSOR_TYPE_LIGHT then
    let payload_size := payload_size + 2
    let mfg := memcpy s.mfg_data (data.repr pad) payload_size
    { s with mfg_data := mfg, adv_updates := s.adv_updates ++ [mfg.take payload_size] }
  else
    { s with log_err := s.log_err + 1 }

/-! ## Concentrator data (main.c and the headers it includes) -/

/-- Zephyr address type `bt_addr_le_t`: an address kind and the address
bytes. -/
structure bt_addr_le_t where
  type : Nat
  val : List Nat
  deriving DecidableEq, Repr

/-- Modelled from the spec: the record `sensor_packet_t`, declared in
sensor_scanner.h which is not among the sources: a reading (`sensor_data`)
plus the sender identity (`addr`) and a receipt timestamp (`timestamp`).  The
field names are the ones main.c reads and writes. -/
structure sensor_packet_t where
  addr : bt_addr_le_t
  timestamp : Nat
  sensor_data : sensor_data_t
  deriving DecidableEq, Repr

/-- Modelled from the spec: the record `concentrator_shadow_t`, declared in
worker_shadow_service.h which is not among the sources: the local clock at
the last aggregation (`concentrator_timestamp`, assigned a `uint32_t`) and one
field per supported reading type (`light`, assigned the `uint16_t` value of a
reading).  The field names are the ones main.c writes. -/
structure concentrator_shadow_t where
  concentrator_timestamp : Nat
  light : Nat
  deriving DecidableEq, Repr

/-- Calls that `sensor_data_handler` makes, in program order. -/
inductive Event where
  | k_malloc (blk : Option sensor_packet_t)
  | k_fifo_get (got : Option sensor_packet_t)
  | k_free (pkt : sensor_packet_t)
  | is_new_data (parsed : sensor_packet_t) (fresh : Bool)
  | k_fifo_put (pkt : sensor_packet_t)
  | log_recovered (dropped : Nat)
  | log_dropping_new
  deriving DecidableEq, Repr

/-- Zephyr `k_fifo_put`: the item becomes the last element of the queue. -/
def k_fifo_put (fifo : List sensor_packet_t) (pkt : sensor_packet_t) : List sensor_packet_t :=
  fifo ++ [pkt]

/-- Zephyr `k_fifo_get` with `K_NO_WAIT`: the first element is removed and
returned, `NULL` on an empty queue. -/
def k_fifo_get (fifo : List sensor_packet_t) : Option sensor_packet_t × List sensor_packet_t :=
  match fifo with
  | [] => (none, [])
  | p :: rest => (some p, rest)

/-- Zephyr `k_uptime_get_32`: the low 32 bits of the uptime in
milliseconds. -/
def k_uptime_get_32 (uptime : Nat) : Nat := uptime % 2 ^ 32

/-! ## Producer: `sensor_data_handler` -/

/-- Variables of the purge loop when it exits: the queue, the counter
`dropped`, the pointer `pkt` left by the last `k_fifo_get`, and the calls
made. -/
structure PurgeState where
  fifo : List sensor_packet_t
  dropped : Nat
  pkt : Option sensor_packet_t
  trace : List Event
  deriving DecidableEq, Repr

/-- Loop of main.c lines 22-25,
`while ((pkt = k_fifo_get(&fifo, K_NO_WAIT)) != NULL && dropped < 5)
 { k_free(pkt); dropped++; }`.
The condition first takes the head of the queue and only then tests the
counter. -/
def purge_loop : List sensor_packet_t → Nat → List Event → PurgeState
  | [], dropped, tr => ⟨[], dropped, none, tr ++ [.k_fifo_get none]⟩
  | p :: rest, dropped, tr =>
    if dropped < 5 then
      purge_loop rest (dropped + 1) (tr ++ [.k_fifo_get (some p), .k_free p])
    else
      ⟨rest, dropped, some p, tr ++ [.k_fifo_get (some p)]⟩

/-- Outcome of one call of `sensor_data_handler`: the queue, the state of the
duplicate filter, and the calls made. -/
structure HandlerResult (F : Type) where
  fifo : List sensor_packet_t
  filter : F
  trace : List Event

/-- Lines 36-46 of main.c, reached with a block `pkt` in hand.  `cfg_dup` is
`CONFIG_SENSOR_SCANNER_DUPLICATE_FILTER`; `is_new_data` is
`sensor_scanner_is_new_data`, whose source is not part of the repository
files at hand, taken as a state-passing parameter. -/
def handler_store {F : Type} (cfg_dup : Bool) (is_new_data : F → sensor_packet_t → Bool × F)
    (pkt : sensor_packet_t) (fifo : List sensor_packet_t) (flt : F) (parsed : sensor_packet_t)
    (tr : List Event) : HandlerResult F :=
  let put (flt : F) (tr : List Event) : HandlerResult F :=
    let pkt := { pkt with addr := parsed.addr }
    let pkt := { pkt with timestamp := parsed.timestamp }
    let pkt := { pkt with sensor_data := parsed.sensor_data }
    ⟨k_fifo_put fifo pkt, flt, tr ++ [.k_fifo_put pkt]⟩
  if cfg_dup then
    let r := is_new_data flt parsed
    if !r.1 then
      ⟨fifo, r.2, tr ++ [.is_new_data parsed false, .k_free pkt]⟩
    else
      put r.2 (tr ++ [.is_new_data parsed true])
  else
    put flt tr

/-- Function `sensor_data_handler` of main.c.  `alloc1` and `alloc2` are the
results of the first and of the second `k_malloc` (`none` is `NULL`, `some b`
is a block of content `b`). -/
def sensor_data_handler {F : Type} (cfg_dup : Bool)
    (is_new_data : F → sensor_packet_t → Bool × F)
    (alloc1 alloc2 : Option sensor_packet_t)
    (fifo : List sensor_packet_t) (flt : F) (parsed : sensor_packet_t) : HandlerResult F :=
  match alloc1 with
  | some pkt => handler_store cfg_dup is_new_data pkt fifo flt parsed [.k_malloc (some pkt)]
  | none =>
    let pg := purge_loop fifo 0 [.k_malloc none]
    match alloc2 with
    | none => ⟨pg.fifo, flt, pg.trace ++ [.k_malloc none, .log_dropping_new]⟩
    | some pkt =>
      handler_store cfg_dup is_new_data pkt pg.fifo flt parsed
        (pg.trace ++ [.k_malloc (some pkt), .log_recovered pg.dropped])

/-! ## Consumer: `sensor_data_worker` -/

/-- State of the worker thread: the local `shadow`, the snapshots passed to
`send_worker_shadow_notification` (oldest first) and the packets released
with `k_free` (oldest first). -/
structure WorkerState where
  shadow : concentrator_shadow_t
  published : List concentrator_shadow_t
  freed : List sensor_packet_t
  deriving DecidableEq, Repr

/-- Initial worker state, `concentrator_shadow_t shadow = {0}`. -/
def WorkerState.init : WorkerState := ⟨⟨0, 0⟩, [], []⟩

/-- Body of the `while (1)` loop of `sensor_data_worker` (main.c lines
54-72).  `pkt` is what `k_fifo_get` returned and `uptime` the uptime at the
call of `k_uptime_get_32`. -/
def sensor_data_worker_body (w : WorkerState) (pkt : Option sensor_packet_t) (uptime : Nat) :
    WorkerState :=
  match pkt with
  | none => w
  | some pkt =>
    let shadow := { w.shadow with concentrator_timestamp := k_uptime_get_32 uptime }
    let shadow :=
      if pkt.sensor_data.type = SENSOR_TYPE_LIGHT then
        { shadow with light := pkt.sensor_data.value }
      else shadow
    { shadow := shadow, published := w.published ++ [shadow], freed := w.freed ++ [pkt] }

/-- Worker loop run over the packets it dequeues, each paired with the uptime
at which it is handled. -/
def sensor_data_worker (w : WorkerState) (inputs : List (sensor_packet_t × Nat)) : WorkerState :=
  inputs.foldl (fun w i => sensor_data_worker_body w (some i.1) i.2) w

/-! ## Producer and consumer around the queue -/

/-- State shared by the two threads: the queue `sensor_data_fifo`, the
duplicate filter, and the worker. -/
structure Pipeline (F : Type) where
  fifo : List sensor_packet_t
  filter : F
  worker : WorkerState

/-- One scheduling step: a call of `sensor_data_handler` on a parsed packet
with its two allocation results, or one turn of the worker at some uptime. -/
inductive Action where
  | submit (parsed : sensor_packet_t) (alloc1 alloc2 : Option sensor_packet_t)
  | work (uptime : Nat)
  deriving DecidableEq, Repr

/-- Effect of one scheduling step.  A worker turn on an empty queue changes
nothing: `k_fifo_get` with `K_FOREVER` keeps waiting. -/
def Pipeline.step {F : Type} (cfg_dup : Bool) (is_new_data : F → sensor_packet_t → Bool × F)
    (s : Pipeline F) : Action → Pipeline F
  | .submit parsed alloc1 alloc2 =>
    let r := sensor_data_handler cfg_dup is_new_data alloc1 alloc2 s.fifo s.filter parsed
    { s with fifo := r.fifo, filter := r.filter }
  | .work uptime =>
    match s.fifo with
    | [] => s
    | p :: rest => { s with fifo := rest, worker := sensor_data_worker_body s.worker (some p) uptime }

/-- Effect of a schedule. -/
def Pipeline.run {F : Type} (cfg_dup : Bool) (is_new_data : F → sensor_packet_t → Bool × F)
    (s : Pipeline F) (sch : List Action) : Pipeline F :=
  sch.foldl (Pipeline.step cfg_dup is_new_data) s

/-- Packets handed to `sensor_data_handler` by a schedule, in order. -/
def submitted : List Action → List sensor_packet_t
  | [] => []
  | .submit parsed _ _ :: rest => parsed :: submitted rest
  | .work _ :: rest => submitted rest

/-- Every first allocation of the schedule succeeds. -/
def allocs_ok : List Action → Bool
  | [] => true
  | .submit _ alloc1 _ :: rest => alloc1.isSome && allocs_ok rest
  | .work _ :: rest => allocs_ok rest

/-- Packets of `ps` the duplicate filter answers "new" for, when it is asked
about each of them in order starting from filter state `flt` (all of them when
the filter is configured out). -/
def accepted {F : Type} (cfg_dup : Bool) (is_new_data : F → sensor_packet_t → Bool × F) :
    F → List sensor_packet_t → List sensor_packet_t
  | _, [] => []
  | flt, p :: ps =>
    if cfg_dup then
      if (is_new_data flt p).1 then p :: accepted cfg_dup is_new_data (is_new_data flt p).2 ps
      else accepted cfg_dup is_new_data (is_new_data flt p).2 ps
    else p :: accepted cfg_dup is_new_data flt ps

/-- Value of the last Light packet of `ps`, `init` when there is none. -/
def last_light (init : Nat) (ps : List sensor_packet_t) : Nat :=
  match (ps.filter (fun p => p.sensor_data.type = SENSOR_TYPE_LIGHT)).getLast? with
  | some p => p.sensor_data.value
  | none => init

/-- Duplicate filter that answers from a script: the state is the list of
answers still to give (an exhausted script answers "new"). -/
def scripted_filter (script : List Bool) (_ : sensor_packet_t) : Bool × List Bool :=
  match script with
  | [] => (true, [])
  | b :: rest => (b, rest)

/-! ## Trace observations and sample data -/

/-- Sample packet number `i`: sender address `[i]`, receipt time `i`, a Light
reading with timestamp `i` and value `10 * i`. -/
def sample_packet (i : Nat) : sensor_packet_t :=
  ⟨⟨0, [i]⟩, i, ⟨COMPANY_ID, SENSOR_TYPE_LIGHT, 0, i, 10 * i⟩⟩

/-- The event is a `k_malloc` call. -/
def Event.is_malloc : Event → Bool
  | .k_malloc _ => true
  | _ => false

/-- The event is a call of the duplicate filter. -/
def Event.is_filter_call : Event → Bool
  | .is_new_data _ _ => true
  | _ => false

/-- The event is a `k_fifo_put` call. -/
def Event.is_put : Event → Bool
  | .k_fifo_put _ => true
  | _ => false

/-- The event is a `k_fifo_get` call that returned a packet. -/
def Event.is_get_some : Event → Bool
  | .k_fifo_get (some _) => true
  | _ => false

/-- The event is a `k_free` call. -/
def Event.is_free : Event → Bool
  | .k_free _ => true
  | _ => false

/-- Stamp carried by a published snapshot. -/
def stamps (pub : List concentrator_shadow_t) : List Nat :=
  pub.map (fun sh => sh.concentrator_timestamp)

/-- Packet with discriminant `SENSOR_TYPE_ERROR`, value 99. -/
def error_packet : sensor_packet_t :=
  ⟨⟨0, [1]⟩, 0, ⟨COMPANY_ID, SENSOR_TYPE_ERROR, 0, 1, 99⟩⟩

/-- Pipeline at start-up: empty queue, worker with a zeroed shadow. -/
def Pipeline.start {F : Type} (flt : F) : Pipeline F := ⟨[], flt, WorkerState.init⟩

/-- Sender address `idA` of the end-to-end scenario. -/
def idA : bt_addr_le_t := ⟨0, [0xA0, 0, 0, 0, 0, 0xC0]⟩

/-- Packet `(idA, Light, value, t)` of the end-to-end scenario. -/
def scenario_packet (value t : Nat) : sensor_packet_t :=
  ⟨idA, 0, ⟨COMPANY_ID, SENSOR_TYPE_LIGHT, 0, t, value⟩⟩

/-- Submissions of the end-to-end scenario: `(idA, Light, 10, t=1)`,
`(idA, Light, 20, t=2)`, `(idA, Light, 20, t=2)`, every first allocation
succeeding. -/
def scenario_submissions : List Action :=
  [.submit (scenario_packet 10 1) (some error_packet) none,
   .submit (scenario_packet 20 2) (some error_packet) none,
   .submit (scenario_packet 20 2) (some error_packet) none]

/-- Worker turns at the given uptimes. -/
def worker_turns (clocks : List Nat) : List Action := clocks.map Action.work

/-! ## Codec theorems -/

/-- Little-endian reading of the two low bytes of a 16-bit value. -/
theorem le_value_two (v : Nat) (h : v < 2 ^ 16) :
    le_value [byte_at v 0, byte_at v 1] = v := by
  simp only [le_value, byte_at]
  norm_num
  omega

/-- Little-endian reading of the four low bytes of a 32-bit value. -/
theorem le_value_four (v : Nat) (h : v < 2 ^ 32) :
    le_value [byte_at v 0, byte_at v 1, byte_at v 2, byte_at v 3] = v := by
  simp only [le_value, byte_at]
  norm_num
  omega

/-- C1: for a Light reading with in-range fields and the 12-byte buffer
`mfg_data`, `sensor_data_adv_update` issues one advertising update whose
manufacturer data is exactly 10 bytes: company_id (little-endian) at 0-1, the
discriminant at 2, the padding byte at 3, the timestamp (little-endian) at
4-7 and the value (little-endian) at 8-9; these 10 bytes are the head of
`mfg_data` afterwards, and every byte of `mfg_data` from offset 10 on is as
before. -/
theorem adv_update_light_payload (d : sensor_data_t) (pad : Nat × Nat) (s : AdvState)
    (hty : d.type = SENSOR_TYPE_LIGHT) (hr : d.inRange)
    (hbuf : s.mfg_data.length = SIZEOF_SENSOR_DATA) :
    let s1 := sensor_data_adv_update d pad s
    let payload := s1.mfg_data.take 10
    s1.adv_updates = s.adv_updates ++ [payload] ∧
    payload.length = 8 + 2 ∧
    le_value (payload.take 2) = d.company_id ∧
    payload[2]? = some SENSOR_TYPE_LIGHT ∧
    payload[3]? = some d.padding_byte ∧
    le_value ((payload.drop 4).take 4) = d.timestamp ∧
    le_value (payload.drop 8) = d.value ∧
    payload = [byte_at d.company_id 0, byte_at d.company_id 1, d.type, d.padding_byte,
      byte_at d.timestamp 0, byte_at d.timestamp 1, byte_at d.timestamp 2, byte_at d.timestamp 3,
      byte_at d.value 0, byte_at d.value 1] ∧
    s1.mfg_data.length = SIZEOF_SENSOR_DATA ∧
    s1.mfg_data.drop 10 = s.mfg_data.drop 10 ∧
    (∀ i, 9 < i → s1.mfg_data[i]? = s.mfg_data[i]?) ∧
    s1.log_err = s.log_err := by
  obtain ⟨h1, h2, h3, h4, h5⟩ := hr
  have hb2 : byte_at d.type 0 = d.type := by simp only [byte_at]; norm_num; omega
  have hb3 : byte_at d.padding_byte 0 = d.padding_byte := by simp only [byte_at]; norm_num; omega
  have hlen : 10 ≤ s.mfg_data.length := by rw [hbuf]; decide
  have hmfg : (sensor_data_adv_update d pad s).mfg_data =
      [byte_at d.company_id 0, byte_at d.company_id 1, d.type, d.padding_byte,
        byte_at d.timestamp 0, byte_at d.timestamp 1, byte_at d.timestamp 2,
        byte_at d.timestamp 3, byte_at d.value 0, byte_at d.value 1] ++ s.mfg_data.drop 10 := by
    unfold sensor_data_adv_update
    rw [if_pos hty]
    simp [memcpy, sensor_data_t.repr, hb2, hb3]
  have hadv : (sensor_data_adv_update d pad s).adv_updates =
      s.adv_updates ++ [(sensor_data_adv_update d pad s).mfg_data.take 10] := by
    simp [sensor_data_adv_update, hty]
  have hlog : (sensor_data_adv_update d pad s).log_err = s.log_err := by
    simp [sensor_data_adv_update, hty]
  intro s1 payload
  have hp : payload = [byte_at d.company_id 0, byte_at d.company_id 1, d.type, d.padding_byte,
        byte_at d.timestamp 0, byte_at d.timestamp 1, byte_at d.timestamp 2,
        byte_at d.timestamp 3, byte_at d.value 0, byte_at d.value 1] := by
    show (sensor_data_adv_update d pad s).mfg_data.take 10 = _
    rw [hmfg]; rfl
  refine ⟨hadv, ?_, ?_, ?_, ?_, ?_, ?_, hp, ?_, ?_, ?_, hlog⟩
  · rw [hp]; rfl
  · rw [hp]; exact le_value_two _ h1
  · rw [hp, hty]; rfl
  · rw [hp]; rfl
  · rw [hp]; exact le_value_four _ h4
  · rw [hp]; exact le_value_two _ h5
  · show (sensor_data_adv_update d pad s).mfg_data.length = _
    rw [hmfg]; simp [SIZEOF_SENSOR_DATA] at hbuf ⊢; omega
  · show (sensor_data_adv_update d pad s).mfg_data.drop 10 = _
    rw [hmfg]; rfl
  · intro i hi
    show (sensor_data_adv_update d pad s).mfg_data[i]? = _
    rw [hmfg]
    obtain ⟨k, rfl⟩ : ∃ k, i = 10 + k := ⟨i - 10, by omega⟩
    rw [List.getElem?_append_right (by simp)]
    simp [List.getElem?_drop]

/-- Witness for C1: the reading (0x0059, Light, pad 0, t = 0x01020304,
value 0x0A0B) written over a buffer of twelve 0xEE bytes. -/
theorem adv_update_light_payload_witness :
    (sensor_data_adv_update ⟨0x0059, 1, 0, 0x01020304, 0x0A0B⟩ (7, 9)
        ⟨List.replicate 12 0xEE, [], 0⟩).mfg_data
      = [0x59, 0x00, 1, 0, 0x04, 0x03, 0x02, 0x01, 0x0B, 0x0A, 0xEE, 0xEE] ∧
    (sensor_data_adv_update ⟨0x0059, 1, 0, 0x01020304, 0x0A0B⟩ (7, 9)
        ⟨List.replicate 12 0xEE, [], 0⟩).adv_updates
      = [] ++ [(sensor_data_adv_update ⟨0x0059, 1, 0, 0x01020304, 0x0A0B⟩ (7, 9)
        ⟨List.replicate 12 0xEE, [], 0⟩).mfg_data.take 10] :=
  ⟨by decide,
   (adv_update_light_payload ⟨0x0059, 1, 0, 0x01020304, 0x0A0B⟩ (7, 9)
      ⟨List.replicate 12 0xEE, [], 0⟩ rfl (by decide) rfl).1⟩

/-- C2: for a reading whose discriminant is not Light, `sensor_data_adv_update`
leaves `mfg_data` exactly as it was and issues no advertising update; the
only effect is one error log line. -/
theorem adv_update_other_type_no_effect (d : sensor_data_t) (pad : Nat × Nat) (s : AdvState)
    (hty : d.type ≠ SENSOR_TYPE_LIGHT) :
    (sensor_data_adv_update d pad s).mfg_data = s.mfg_data ∧
    (sensor_data_adv_update d pad s).adv_updates = s.adv_updates ∧
    (sensor_data_adv_update d pad s).log_err = s.log_err + 1 := by
  simp [sensor_data_adv_update, hty]

/-- Witness for C2: a reading with discriminant `SENSOR_TYPE_ERROR`. -/
theorem adv_update_other_type_no_effect_witness :
    (sensor_data_adv_update ⟨0x0059, 0, 0, 5, 77⟩ (0, 0) ⟨List.replicate 12 3, [[1]], 0⟩).mfg_data
      = List.replicate 12 3 ∧
    (sensor_data_adv_update ⟨0x0059, 0, 0, 5, 77⟩ (0, 0) ⟨List.replicate 12 3, [[1]], 0⟩).adv_updates
      = [[1]] :=
  ⟨(adv_update_other_type_no_effect ⟨0x0059, 0, 0, 5, 77⟩ (0, 0)
      ⟨List.replicate 12 3, [[1]], 0⟩ (by decide)).1,
   (adv_update_other_type_no_effect ⟨0x0059, 0, 0, 5, 77⟩ (0, 0)
      ⟨List.replicate 12 3, [[1]], 0⟩ (by decide)).2.1⟩

/-! ## Purge loop -/

/-- The loop in the shape of the C source: `k_fifo_get` is evaluated first,
then the counter is tested. -/
theorem purge_loop_unfold (fifo : List sensor_packet_t) (dropped : Nat) (tr : List Event) :
    purge_loop fifo dropped tr =
      match k_fifo_get fifo with
      | (none, rest) => ⟨rest, dropped, none, tr ++ [.k_fifo_get none]⟩
      | (some p, rest) =>
        if dropped < 5 then
          purge_loop rest (dropped + 1) (tr ++ [.k_fifo_get (some p), .k_free p])
        else ⟨rest, dropped, some p, tr ++ [.k_fifo_get (some p)]⟩ := by
  cases fifo <;> simp [purge_loop, k_fifo_get]

/-- Queue left by the purge loop: with the counter at `dropped ≤ 5` on entry,
the first `6 - dropped` packets are gone. -/
theorem purge_loop_fifo (fifo : List sensor_packet_t) (dropped : Nat) (tr : List Event)
    (hd : dropped ≤ 5) :
    (purge_loop fifo dropped tr).fifo = fifo.drop (6 - dropped) := by
  induction fifo generalizing dropped tr with
  | nil => simp [purge_loop]
  | cons p rest ih =>
    unfold purge_loop
    by_cases h : dropped < 5
    · rw [if_pos h, ih _ _ (by omega)]
      have : 6 - dropped = (6 - (dropped + 1)) + 1 := by omega
      rw [this, List.drop_succ_cons]
    · have h5 : dropped = 5 := by omega
      subst h5
      simp

/-- Counter `dropped` when the purge loop exits. -/
theorem purge_loop_dropped (fifo : List sensor_packet_t) (dropped : Nat) (tr : List Event)
    (hd : dropped ≤ 5) :
    (purge_loop fifo dropped tr).dropped = min (dropped + fifo.length) 5 := by
  induction fifo generalizing dropped tr with
  | nil => simp [purge_loop]; omega
  | cons p rest ih =>
    unfold purge_loop
    by_cases h : dropped < 5
    · rw [if_pos h, ih _ _ (by omega)]
      simp only [List.length_cons]; omega
    · rw [if_neg h]
      simp only [List.length_cons]; omega

/-- Calls other than queue reads and releases are not made by the purge
loop. -/
theorem purge_loop_trace_count (P : Event → Bool)
    (hget : ∀ g, P (.k_fifo_get g) = false) (hfree : ∀ p, P (.k_free p) = false)
    (fifo : List sensor_packet_t) (dropped : Nat) (tr : List Event) :
    (purge_loop fifo dropped tr).trace.countP P = tr.countP P := by
  induction fifo generalizing dropped tr with
  | nil => simp [purge_loop, hget]
  | cons p rest ih =>
    unfold purge_loop
    by_cases h : dropped < 5
    · rw [if_pos h, ih]; simp [hget, hfree]
    · rw [if_neg h]; simp [hget]

/-- Queue after the purge in `sensor_data_handler`: the first six packets are
gone. -/
theorem purge_from_zero (fifo : List sensor_packet_t) (tr : List Event) :
    (purge_loop fifo 0 tr).fifo = fifo.drop 6 :=
  purge_loop_fifo fifo 0 tr (by omega)

/-- C3: evaluation of the purge at a queue of six packets: all six are taken
off the queue (five released, the sixth left in `pkt` and overwritten by the
retry), the counter reports 5, and the queue after `sensor_data_handler` holds
only the new packet. -/
theorem purge_six_of_six :
    (purge_loop ((List.range 6).map sample_packet) 0 []).fifo = [] ∧
    (purge_loop ((List.range 6).map sample_packet) 0 []).dropped = 5 ∧
    (purge_loop ((List.range 6).map sample_packet) 0 []).pkt = some (sample_packet 5) ∧
    (purge_loop ((List.range 6).map sample_packet) 0 []).trace.countP Event.is_get_some = 6 ∧
    (purge_loop ((List.range 6).map sample_packet) 0 []).trace.countP Event.is_free = 5 ∧
    ((List.range 6).map sample_packet).length
      - (purge_loop ((List.range 6).map sample_packet) 0 []).fifo.length = 6 ∧
    min ((List.range 6).map sample_packet).length 5 = 5 ∧
    (sensor_data_handler false scripted_filter none (some (sample_packet 0))
      ((List.range 6).map sample_packet) [] (sample_packet 9)).fifo = [sample_packet 9] := by
  decide

/-! ## `sensor_data_handler` -/

/-- Lines 36-46 change the queue only by appending at most one packet, and
by nothing when the filter is configured in and answers "not new". -/
theorem handler_store_fifo {F : Type} (cfg_dup : Bool)
    (is_new_data : F → sensor_packet_t → Bool × F) (pkt : sensor_packet_t)
    (fifo : List sensor_packet_t) (flt : F) (parsed : sensor_packet_t) (tr : List Event) :
    (handler_store cfg_dup is_new_data pkt fifo flt parsed tr).fifo =
      if cfg_dup = true ∧ (is_new_data flt parsed).1 = false then fifo else fifo ++ [parsed] := by
  unfold handler_store
  cases cfg_dup <;> cases h : (is_new_data flt parsed).1 <;> simp [h, k_fifo_put]

/-- Filter state after lines 36-46. -/
theorem handler_store_filter {F : Type} (cfg_dup : Bool)
    (is_new_data : F → sensor_packet_t → Bool × F) (pkt : sensor_packet_t)
    (fifo : List sensor_packet_t) (flt : F) (parsed : sensor_packet_t) (tr : List Event) :
    (handler_store cfg_dup is_new_data pkt fifo flt parsed tr).filter =
      if cfg_dup = true then (is_new_data flt parsed).2 else flt := by
  unfold handler_store
  cases cfg_dup <;> cases h : (is_new_data flt parsed).1 <;> simp [h]

/-- Lines 36-46 make no allocation. -/
theorem handler_store_mallocs {F : Type} (cfg_dup : Bool)
    (is_new_data : F → sensor_packet_t → Bool × F) (pkt : sensor_packet_t)
    (fifo : List sensor_packet_t) (flt : F) (parsed : sensor_packet_t) (tr : List Event) :
    (handler_store cfg_dup is_new_data pkt fifo flt parsed tr).trace.countP Event.is_malloc =
      tr.countP Event.is_malloc := by
  unfold handler_store
  cases cfg_dup <;> cases h : (is_new_data flt parsed).1 <;> simp [h, Event.is_malloc]

/-- Lines 36-46 call `k_fifo_put` exactly when the queue grows. -/
theorem handler_store_puts {F : Type} (cfg_dup : Bool)
    (is_new_data : F → sensor_packet_t → Bool × F) (pkt : sensor_packet_t)
    (fifo : List sensor_packet_t) (flt : F) (parsed : sensor_packet_t) (tr : List Event) :
    (handler_store cfg_dup is_new_data pkt fifo flt parsed tr).trace.countP Event.is_put =
      tr.countP Event.is_put +
        (if cfg_dup = true ∧ (is_new_data flt parsed).1 = false then 0 else 1) := by
  unfold handler_store
  cases cfg_dup <;> cases h : (is_new_data flt parsed).1 <;> simp [h, Event.is_put]

/-- Number of allocations of one call of `sensor_data_handler`. -/
theorem handler_mallocs {F : Type} (cfg_dup : Bool)
    (is_new_data : F → sensor_packet_t → Bool × F) (alloc1 alloc2 : Option sensor_packet_t)
    (fifo : List sensor_packet_t) (flt : F) (parsed : sensor_packet_t) :
    (sensor_data_handler cfg_dup is_new_data alloc1 alloc2 fifo flt parsed).trace.countP
        Event.is_malloc = if alloc1.isSome then 1 else 2 := by
  have hp : ∀ tr, (purge_loop fifo 0 tr).trace.countP Event.is_malloc =
      tr.countP Event.is_malloc :=
    fun tr => purge_loop_trace_count _ (fun _ => rfl) (fun _ => rfl) fifo 0 tr
  cases alloc1 with
  | some b => simp [sensor_data_handler, handler_store_mallocs, Event.is_malloc]
  | none =>
    cases alloc2 with
    | none => simp [sensor_data_handler, hp, Event.is_malloc]
    | some b => simp [sensor_data_handler, handler_store_mallocs, hp, Event.is_malloc]

/-- C9: when both allocations of `sensor_data_handler` fail, the new packet
is dropped: `k_fifo_put` is not called, the duplicate filter is not called and
keeps its state, and the queue afterwards is the queue before without its
first six packets at most, hence a suffix of it; and whatever the allocation
results, one call makes at most two allocations. -/
theorem handler_double_failure_drops {F : Type} (cfg_dup : Bool)
    (is_new_data : F → sensor_packet_t → Bool × F)
    (fifo : List sensor_packet_t) (flt : F) (parsed : sensor_packet_t) :
    (sensor_data_handler cfg_dup is_new_data none none fifo flt parsed).fifo = fifo.drop 6 ∧
    (sensor_data_handler cfg_dup is_new_data none none fifo flt parsed).fifo <:+ fifo ∧
    (sensor_data_handler cfg_dup is_new_data none none fifo flt parsed).filter = flt ∧
    (sensor_data_handler cfg_dup is_new_data none none fifo flt parsed).trace.countP
      Event.is_filter_call = 0 ∧
    (sensor_data_handler cfg_dup is_new_data none none fifo flt parsed).trace.countP
      Event.is_put = 0 ∧
    (sensor_data_handler cfg_dup is_new_data none none fifo flt parsed).trace.countP
      Event.is_malloc = 2 ∧
    (∀ alloc1 alloc2,
      (sensor_data_handler cfg_dup is_new_data alloc1 alloc2 fifo flt parsed).trace.countP
        Event.is_malloc ≤ 2) := by
  have hf : (sensor_data_handler cfg_dup is_new_data none none fifo flt parsed).fifo
      = fifo.drop 6 := by
    simp [sensor_data_handler, purge_from_zero]
  refine ⟨hf, ?_, ?_, ?_, ?_, ?_, ?_⟩
  · rw [hf]; exact List.drop_suffix 6 fifo
  · simp [sensor_data_handler]
  · simp only [sensor_data_handler, List.countP_append]
    rw [purge_loop_trace_count _ (fun _ => rfl) (fun _ => rfl)]
    simp [Event.is_filter_call]
  · simp only [sensor_data_handler, List.countP_append]
    rw [purge_loop_trace_count _ (fun _ => rfl) (fun _ => rfl)]
    simp [Event.is_put]
  · rw [handler_mallocs]; rfl
  · intro alloc1 alloc2
    rw [handler_mallocs]
    split <;> omega

/-- C10, as stated, fails: with one packet queued, the first allocation
failing, the retry succeeding and the filter answering "not new", the call
empties the queue. -/
theorem handler_reject_after_purge_changes_queue :
    (scripted_filter [false] (sample_packet 2)).1 = false ∧
    (sensor_data_handler true scripted_filter none (some (sample_packet 0))
      [sample_packet 1] [false] (sample_packet 2)).fifo = [] ∧
    (sensor_data_handler true scripted_filter none (some (sample_packet 0))
      [sample_packet 1] [false] (sample_packet 2)).fifo ≠ [sample_packet 1] := by
  decide

/-- C10, amended: when the duplicate filter is configured in and answers
"not new" for the reading, `sensor_data_handler` adds nothing: `k_fifo_put` is
not called, the queue afterwards is a suffix of the queue before, and it is
identical to the queue before whenever the first allocation succeeded. -/
theorem handler_reject_adds_nothing {F : Type}
    (is_new_data : F → sensor_packet_t → Bool × F) (alloc1 alloc2 : Option sensor_packet_t)
    (fifo : List sensor_packet_t) (flt : F) (parsed : sensor_packet_t)
    (hrej : (is_new_data flt parsed).1 = false) :
    (sensor_data_handler true is_new_data alloc1 alloc2 fifo flt parsed).fifo <:+ fifo ∧
    (sensor_data_handler true is_new_data alloc1 alloc2 fifo flt parsed).trace.countP
      Event.is_put = 0 ∧
    (alloc1.isSome = true →
      (sensor_data_handler true is_new_data alloc1 alloc2 fifo flt parsed).fifo = fifo) := by
  have hp : ∀ tr, (purge_loop fifo 0 tr).trace.countP Event.is_put = tr.countP Event.is_put :=
    fun tr => purge_loop_trace_count _ (fun _ => rfl) (fun _ => rfl) fifo 0 tr
  cases alloc1 with
  | some b =>
    simp [sensor_data_handler, handler_store_fifo, handler_store_puts, hrej, Event.is_put]
  | none =>
    cases alloc2 with
    | none =>
      simp [sensor_data_handler, purge_from_zero, hp, Event.is_put, List.drop_suffix]
    | some b =>
      simp [sensor_data_handler, handler_store_fifo, handler_store_puts, hrej, purge_from_zero,
        hp, Event.is_put, List.drop_suffix]

/-- Witness for the amended C10: the rejected packet of the counterexample,
once with the first allocation succeeding and once with it failing. -/
theorem handler_reject_adds_nothing_witness :
    (sensor_data_handler true scripted_filter (some (sample_packet 0)) none
      [sample_packet 1] [false] (sample_packet 2)).fifo = [sample_packet 1] ∧
    (sensor_data_handler true scripted_filter none (some (sample_packet 0))
      [sample_packet 1] [false] (sample_packet 2)).fifo <:+ [sample_packet 1] :=
  ⟨(handler_reject_adds_nothing scripted_filter (some (sample_packet 0)) none
      [sample_packet 1] [false] (sample_packet 2) rfl).2.2 rfl,
   (handler_reject_adds_nothing scripted_filter none (some (sample_packet 0))
      [sample_packet 1] [false] (sample_packet 2) rfl).1⟩

/-! ## `sensor_data_worker` -/

/-- Effect of one iteration of the worker loop on a dequeued packet: one
snapshot published, the shadow stamped and `light` updated for a Light
packet, the packet released. -/
theorem worker_body_effect (w : WorkerState) (pkt : sensor_packet_t) (uptime : Nat) :
    (sensor_data_worker_body w (some pkt) uptime).published
      = w.published ++ [(sensor_data_worker_body w (some pkt) uptime).shadow] ∧
    (sensor_data_worker_body w (some pkt) uptime).published.length = w.published.length + 1 ∧
    (sensor_data_worker_body w (some pkt) uptime).shadow.concentrator_timestamp
      = k_uptime_get_32 uptime ∧
    (sensor_data_worker_body w (some pkt) uptime).shadow.light
      = (if pkt.sensor_data.type = SENSOR_TYPE_LIGHT then pkt.sensor_data.value
         else w.shadow.light) ∧
    (sensor_data_worker_body w (some pkt) uptime).freed = w.freed ++ [pkt] := by
  unfold sensor_data_worker_body
  by_cases h : pkt.sensor_data.type = SENSOR_TYPE_LIGHT <;> simp [h]

/-- C5: one iteration of the worker loop on a dequeued packet, whatever its
discriminant, calls the publish interface exactly once, and the snapshot
passed is the shadow as it is after this iteration: `concentrator_timestamp`
is the 32-bit uptime read in the iteration, `light` is the value of the packet
when it is Light and the previous `light` otherwise. -/
theorem worker_body_publishes_once (w : WorkerState) (pkt : sensor_packet_t) (uptime : Nat) :
    (∃ snapshot : concentrator_shadow_t,
      (sensor_data_worker_body w (some pkt) uptime).published = w.published ++ [snapshot] ∧
      snapshot = (sensor_data_worker_body w (some pkt) uptime).shadow ∧
      snapshot.concentrator_timestamp = k_uptime_get_32 uptime ∧
      snapshot.light = (if pkt.sensor_data.type = SENSOR_TYPE_LIGHT then pkt.sensor_data.value
        else w.shadow.light)) ∧
    (sensor_data_worker_body w (some pkt) uptime).published.length
      = w.published.length + 1 := by
  unfold sensor_data_worker_body
  by_cases h : pkt.sensor_data.type = SENSOR_TYPE_LIGHT <;> simp [h]

/-- C6, as stated, fails: a packet with discriminant 0 handled at uptime 1
changes `concentrator_timestamp` from 0 to 1. -/
theorem worker_body_unknown_type_restamps :
    error_packet.sensor_data.type ≠ SENSOR_TYPE_LIGHT ∧
    WorkerState.init.shadow.concentrator_timestamp = 0 ∧
    (sensor_data_worker_body WorkerState.init (some error_packet) 1).shadow.concentrator_timestamp
      = 1 ∧
    (sensor_data_worker_body WorkerState.init (some error_packet) 1).shadow
      ≠ WorkerState.init.shadow := by
  decide

/-- C6, amended: for a packet whose discriminant is not Light, one iteration
of the worker loop keeps `light` and sets `concentrator_timestamp` to the
32-bit uptime read in this iteration. -/
theorem worker_body_unknown_type_keeps_light (w : WorkerState) (pkt : sensor_packet_t)
    (uptime : Nat) (hty : pkt.sensor_data.type ≠ SENSOR_TYPE_LIGHT) :
    (sensor_data_worker_body w (some pkt) uptime).shadow.light = w.shadow.light ∧
    (sensor_data_worker_body w (some pkt) uptime).shadow.concentrator_timestamp
      = k_uptime_get_32 uptime := by
  simp [sensor_data_worker_body, hty]

/-- Witness for the amended C6: the packet of the counterexample, handled at
uptime 1 with 7 in `light`. -/
theorem worker_body_unknown_type_keeps_light_witness :
    (sensor_data_worker_body ⟨⟨0, 7⟩, [], []⟩ (some error_packet) 1).shadow.light = 7 ∧
    (sensor_data_worker_body ⟨⟨0, 7⟩, [], []⟩ (some error_packet) 1).shadow.concentrator_timestamp
      = k_uptime_get_32 1 :=
  worker_body_unknown_type_keeps_light ⟨⟨0, 7⟩, [], []⟩ error_packet 1 (by decide)

/-- Stamps published by the worker loop over a list of inputs: the earlier
ones, then the 32-bit uptime of each input. -/
theorem worker_stamps (w : WorkerState) (inputs : List (sensor_packet_t × Nat)) :
    stamps (sensor_data_worker w inputs).published
      = stamps w.published ++ inputs.map (fun i => k_uptime_get_32 i.2) := by
  induction inputs generalizing w with
  | nil => simp [sensor_data_worker]
  | cons i rest ih =>
    have hstep : sensor_data_worker w (i :: rest)
        = sensor_data_worker (sensor_data_worker_body w (some i.1) i.2) rest := rfl
    rw [hstep, ih]
    have hb := worker_body_effect w i.1 i.2
    rw [hb.1]
    simp [stamps, hb.2.2.1]

/-- Truncation to 32 bits keeps the order of two uptimes of one 2^32 window. -/
theorem k_uptime_get_32_mono (a b : Nat) (hle : a ≤ b) (hwin : a / 2 ^ 32 = b / 2 ^ 32) :
    k_uptime_get_32 a ≤ k_uptime_get_32 b := by
  unfold k_uptime_get_32
  norm_num at hwin ⊢
  omega

/-- C8, as stated, fails: two packets handled at uptimes `2 ^ 32 - 1` and
`2 ^ 32` (the clock does not go backwards) are published with stamps
4294967295 and then 0. -/
theorem worker_stamp_wraps :
    2 ^ 32 - 1 ≤ 2 ^ 32 ∧
    stamps (sensor_data_worker WorkerState.init
      [(sample_packet 1, 2 ^ 32 - 1), (sample_packet 2, 2 ^ 32)]).published
      = [4294967295, 0] ∧
    ¬ List.Chain' (fun a b => a ≤ b) (stamps (sensor_data_worker WorkerState.init
      [(sample_packet 1, 2 ^ 32 - 1), (sample_packet 2, 2 ^ 32)]).published) := by
  have h : stamps (sensor_data_worker WorkerState.init
      [(sample_packet 1, 2 ^ 32 - 1), (sample_packet 2, 2 ^ 32)]).published
      = [4294967295, 0] := by decide
  refine ⟨by decide, h, ?_⟩
  rw [h]
  simp

/-- C8, amended: for every worker state and every run of the worker loop,
the stamp of each publish is the uptime of that iteration modulo `2 ^ 32`; and
for every two consecutive publishes, whatever happened before them, the stamp
of the second is not below the stamp of the first when the uptime did not go
backwards and did not cross a multiple of `2 ^ 32` between the two. -/
theorem worker_stamps_monotone (w : WorkerState) (inputs : List (sensor_packet_t × Nat)) :
    stamps (sensor_data_worker w inputs).published
      = stamps w.published ++ inputs.map (fun i => i.2 % 2 ^ 32) ∧
    (∀ (k : Nat) (a b : sensor_packet_t × Nat),
      inputs[k]? = some a → inputs[k + 1]? = some b →
      a.2 ≤ b.2 → a.2 / 2 ^ 32 = b.2 / 2 ^ 32 →
      (stamps (sensor_data_worker w inputs).published)[w.published.length + k]?
        = some (a.2 % 2 ^ 32) ∧
      (stamps (sensor_data_worker w inputs).published)[w.published.length + (k + 1)]?
        = some (b.2 % 2 ^ 32) ∧
      a.2 % 2 ^ 32 ≤ b.2 % 2 ^ 32) := by
  have h : stamps (sensor_data_worker w inputs).published
      = stamps w.published ++ inputs.map (fun i => i.2 % 2 ^ 32) := worker_stamps w inputs
  have hlen : (stamps w.published).length = w.published.length := by simp [stamps]
  have hat : ∀ (k : Nat) (a : sensor_packet_t × Nat), inputs[k]? = some a →
      (stamps (sensor_data_worker w inputs).published)[w.published.length + k]?
        = some (a.2 % 2 ^ 32) := by
    intro k a ha
    rw [h, List.getElem?_append_right (by omega), hlen, Nat.add_sub_cancel_left,
      List.getElem?_map, ha]
    rfl
  refine ⟨h, ?_⟩
  intro k a b ha hb hle hwin
  exact ⟨hat k a ha, hat (k + 1) b hb, k_uptime_get_32_mono a.2 b.2 hle hwin⟩

/-- Witness for the amended C8: uptimes `2 ^ 32 - 1`, `2 ^ 32` and
`2 ^ 32 + 5`; the second and third publish come after the 32-bit wrap and are
stamped 0 and 5. -/
theorem worker_stamps_monotone_witness :
    (stamps (sensor_data_worker WorkerState.init
      [(sample_packet 1, 2 ^ 32 - 1), (sample_packet 2, 2 ^ 32),
       (sample_packet 3, 2 ^ 32 + 5)]).published)[WorkerState.init.published.length + 1]?
      = some (2 ^ 32 % 2 ^ 32) ∧
    (stamps (sensor_data_worker WorkerState.init
      [(sample_packet 1, 2 ^ 32 - 1), (sample_packet 2, 2 ^ 32),
       (sample_packet 3, 2 ^ 32 + 5)]).published)[WorkerState.init.published.length + (1 + 1)]?
      = some ((2 ^ 32 + 5) % 2 ^ 32) ∧
    2 ^ 32 % 2 ^ 32 ≤ (2 ^ 32 + 5) % 2 ^ 32 :=
  (worker_stamps_monotone WorkerState.init
    [(sample_packet 1, 2 ^ 32 - 1), (sample_packet 2, 2 ^ 32), (sample_packet 3, 2 ^ 32 + 5)]).2
    1 (sample_packet 2, 2 ^ 32) (sample_packet 3, 2 ^ 32 + 5) rfl rfl (by decide) (by decide)

/-! ## Producer and consumer together -/

/-- A schedule is run step by step. -/
theorem run_cons {F : Type} (cfg_dup : Bool) (is_new_data : F → sensor_packet_t → Bool × F)
    (s : Pipeline F) (a : Action) (sch : List Action) :
    Pipeline.run cfg_dup is_new_data s (a :: sch)
      = Pipeline.run cfg_dup is_new_data (Pipeline.step cfg_dup is_new_data s a) sch := rfl

/-- Running two schedules one after the other. -/
theorem run_append {F : Type} (cfg_dup : Bool) (is_new_data : F → sensor_packet_t → Bool × F)
    (s : Pipeline F) (sch1 sch2 : List Action) :
    Pipeline.run cfg_dup is_new_data s (sch1 ++ sch2)
      = Pipeline.run cfg_dup is_new_data (Pipeline.run cfg_dup is_new_data s sch1) sch2 := by
  simp [Pipeline.run, List.foldl_append]

/-- The last Light value over two lists read one after the other. -/
theorem last_light_append (init : Nat) (ps qs : List sensor_packet_t) :
    last_light init (ps ++ qs) = last_light (last_light init ps) qs := by
  unfold last_light
  rw [List.filter_append, List.getLast?_append]
  cases (List.filter (fun p => decide (p.sensor_data.type = SENSOR_TYPE_LIGHT)) qs).getLast?
    <;> cases (List.filter (fun p => decide (p.sensor_data.type = SENSOR_TYPE_LIGHT)) ps).getLast?
    <;> simp

/-- The last Light value of a single packet. -/
theorem last_light_single (init : Nat) (p : sensor_packet_t) :
    last_light init [p]
      = if p.sensor_data.type = SENSOR_TYPE_LIGHT then p.sensor_data.value else init := by
  unfold last_light
  by_cases h : p.sensor_data.type = SENSOR_TYPE_LIGHT <;> simp [h]

/-- Order invariant of the queue: when every first allocation succeeds, the
packets the worker has taken followed by the packets still queued are the
earlier ones followed by the accepted submissions, in order. -/
theorem run_fifo_order {F : Type} (cfg_dup : Bool)
    (is_new_data : F → sensor_packet_t → Bool × F) (sch : List Action) (s : Pipeline F)
    (hok : allocs_ok sch = true) :
    (Pipeline.run cfg_dup is_new_data s sch).worker.freed
        ++ (Pipeline.run cfg_dup is_new_data s sch).fifo
      = s.worker.freed ++ s.fifo ++ accepted cfg_dup is_new_data s.filter (submitted sch) := by
  induction sch generalizing s with
  | nil => simp [Pipeline.run, submitted, accepted]
  | cons a rest ih =>
    rw [run_cons]
    cases a with
    | work uptime =>
      have hok2 : allocs_ok rest = true := by simpa [allocs_ok] using hok
      rw [ih _ hok2]
      cases hq : s.fifo with
      | nil => simp [Pipeline.step, hq, submitted]
      | cons p q =>
        simp [Pipeline.step, hq, submitted, (worker_body_effect s.worker p uptime).2.2.2.2]
    | submit parsed alloc1 alloc2 =>
      cases alloc1 with
      | none => simp [allocs_ok] at hok
      | some blk =>
        have hok2 : allocs_ok rest = true := by simpa [allocs_ok] using hok
        rw [ih _ hok2]
        simp only [Pipeline.step, sensor_data_handler, handler_store_fifo, handler_store_filter,
          submitted, accepted]
        cases cfg_dup <;> cases h : (is_new_data s.filter parsed).1 <;> simp [h]

/-- Worker invariant: over any schedule the worker releases some packets
`ps`, publishes once per packet of `ps`, and ends with the last Light value of
`ps` in `light`. -/
theorem run_worker {F : Type} (cfg_dup : Bool)
    (is_new_data : F → sensor_packet_t → Bool × F) (sch : List Action) (s : Pipeline F) :
    ∃ ps : List sensor_packet_t,
      (Pipeline.run cfg_dup is_new_data s sch).worker.freed = s.worker.freed ++ ps ∧
      (Pipeline.run cfg_dup is_new_data s sch).worker.published.length
        = s.worker.published.length + ps.length ∧
      (Pipeline.run cfg_dup is_new_data s sch).worker.shadow.light
        = last_light s.worker.shadow.light ps := by
  induction sch generalizing s with
  | nil => exact ⟨[], by simp [Pipeline.run, last_light]⟩
  | cons a rest ih =>
    rw [run_cons]
    cases a with
    | submit parsed alloc1 alloc2 =>
      obtain ⟨ps, h1, h2, h3⟩ := ih (Pipeline.step cfg_dup is_new_data s
        (.submit parsed alloc1 alloc2))
      exact ⟨ps, h1, h2, h3⟩
    | work uptime =>
      cases hq : s.fifo with
      | nil =>
        have hs : Pipeline.step cfg_dup is_new_data s (.work uptime) = s := by
          simp [Pipeline.step, hq]
        rw [hs]; exact ih s
      | cons p q =>
        obtain ⟨ps, h1, h2, h3⟩ := ih (Pipeline.step cfg_dup is_new_data s (.work uptime))
        have hb := worker_body_effect s.worker p uptime
        have hw : (Pipeline.step cfg_dup is_new_data s (.work uptime)).worker
            = sensor_data_worker_body s.worker (some p) uptime := by
          simp [Pipeline.step, hq]
        rw [hw] at h1 h2 h3
        refine ⟨p :: ps, ?_, ?_, ?_⟩
        · rw [h1, hb.2.2.2.2]; simp
        · rw [h2, hb.2.1]; simp; omega
        · rw [h3, hb.2.2.2.1, ← last_light_single, ← last_light_append]; rfl

/-- Worker turns take packets off the head of the queue, one per turn. -/
theorem worker_turns_fifo {F : Type} (cfg_dup : Bool)
    (is_new_data : F → sensor_packet_t → Bool × F) (clocks : List Nat) (s : Pipeline F) :
    (Pipeline.run cfg_dup is_new_data s (worker_turns clocks)).fifo
      = s.fifo.drop clocks.length := by
  induction clocks generalizing s with
  | nil => simp [worker_turns, Pipeline.run]
  | cons u rest ih =>
    have hc : worker_turns (u :: rest) = Action.work u :: worker_turns rest := rfl
    rw [hc, run_cons, ih]
    cases hq : s.fifo with
    | nil => simp [Pipeline.step, hq]
    | cons p q => simp [Pipeline.step, hq]

/-- Worker turns allocate nothing and submit nothing. -/
theorem worker_turns_plain (clocks : List Nat) :
    allocs_ok (worker_turns clocks) = true ∧ submitted (worker_turns clocks) = [] := by
  induction clocks with
  | nil => exact ⟨rfl, rfl⟩
  | cons u rest ih =>
    have hc : worker_turns (u :: rest) = Action.work u :: worker_turns rest := rfl
    rw [hc]
    simpa [allocs_ok, submitted] using ih

/-- C4: when the first allocation succeeds and the duplicate filter (if
configured in) answers "new", `sensor_data_handler` leaves the queue equal to
the previous queue with one packet appended at the tail, whose `addr`,
`timestamp` and `sensor_data` are those of the input packet, and calls
`k_fifo_put` once; and over every schedule of handler calls and worker turns
in which the first allocations succeed, the packets the worker has dequeued
followed by the packets still queued are the earlier ones followed by the
enqueued packets in submission order (FIFO). -/
theorem handler_success_appends {F : Type} (cfg_dup : Bool)
    (is_new_data : F → sensor_packet_t → Bool × F) (blk : sensor_packet_t)
    (alloc2 : Option sensor_packet_t) (fifo : List sensor_packet_t) (flt : F)
    (parsed : sensor_packet_t)
    (hacc : cfg_dup = true → (is_new_data flt parsed).1 = true) :
    (∃ pkt : sensor_packet_t,
      (sensor_data_handler cfg_dup is_new_data (some blk) alloc2 fifo flt parsed).fifo
        = fifo ++ [pkt] ∧
      pkt.addr = parsed.addr ∧ pkt.timestamp = parsed.timestamp ∧
      pkt.sensor_data = parsed.sensor_data) ∧
    (sensor_data_handler cfg_dup is_new_data (some blk) alloc2 fifo flt parsed).trace.countP
      Event.is_put = 1 ∧
    k_fifo_get (sensor_data_handler cfg_dup is_new_data (some blk) alloc2 fifo flt parsed).fifo
      = ((fifo ++ [parsed]).head?, (fifo ++ [parsed]).tail) ∧
    (∀ (sch : List Action) (s : Pipeline F), allocs_ok sch = true →
      (Pipeline.run cfg_dup is_new_data s sch).worker.freed
          ++ (Pipeline.run cfg_dup is_new_data s sch).fifo
        = s.worker.freed ++ s.fifo
          ++ accepted cfg_dup is_new_data s.filter (submitted sch)) := by
  have hno : ¬ (cfg_dup = true ∧ (is_new_data flt parsed).1 = false) := by
    rintro ⟨hc, hr⟩
    rw [hacc hc] at hr
    exact Bool.noConfusion hr
  have hf : (sensor_data_handler cfg_dup is_new_data (some blk) alloc2 fifo flt parsed).fifo
      = fifo ++ [parsed] := by
    simp only [sensor_data_handler, handler_store_fifo]
    rw [if_neg hno]
  refine ⟨⟨parsed, hf, rfl, rfl, rfl⟩, ?_, ?_, ?_⟩
  · simp only [sensor_data_handler, handler_store_puts]
    rw [if_neg hno]
    simp [Event.is_put]
  · rw [hf]
    cases fifo <;> simp [k_fifo_get]
  · intro sch s hok
    exact run_fifo_order cfg_dup is_new_data sch s hok

/-- Witness for C4: packet `(idA, Light, 10, t=1)` enqueued behind one queued
packet, the filter answering "new". -/
theorem handler_success_appends_witness :
    ∃ pkt : sensor_packet_t,
      (sensor_data_handler true scripted_filter (some error_packet) none
        [sample_packet 1] [true] (scenario_packet 10 1)).fifo = [sample_packet 1] ++ [pkt] ∧
      pkt.addr = (scenario_packet 10 1).addr ∧
      pkt.timestamp = (scenario_packet 10 1).timestamp ∧
      pkt.sensor_data = (scenario_packet 10 1).sensor_data :=
  (handler_success_appends true scripted_filter error_packet none [sample_packet 1] [true]
    (scenario_packet 10 1) (fun _ => rfl)).1

/-- C7: for every schedule of submissions and worker turns starting from the
empty pipeline in which every first allocation succeeds, once the worker has
taken enough turns to empty the queue, the packets that went through the queue
are exactly those the duplicate filter accepted, in order, the worker has
published exactly once per accepted packet, and `light` is the value of the
last accepted Light packet (0 when there is none).  In the scenario
`(idA, Light, 10, t=1)`, `(idA, Light, 20, t=2)`, `(idA, Light, 20, t=2)` with
the filter answering new, new, not new: 2 packets are queued, 2 publishes are
made and `light` ends at 20, also when the worker runs between the
submissions. -/
theorem pipeline_accepted_published {F : Type} (cfg_dup : Bool)
    (is_new_data : F → sensor_packet_t → Bool × F) (flt : F) (sch : List Action)
    (clocks : List Nat) (hok : allocs_ok sch = true)
    (hturns : (Pipeline.run cfg_dup is_new_data (Pipeline.start flt) sch).fifo.length
      ≤ clocks.length) :
    ((Pipeline.run cfg_dup is_new_data (Pipeline.start flt) sch).worker.freed
        ++ (Pipeline.run cfg_dup is_new_data (Pipeline.start flt) sch).fifo
      = accepted cfg_dup is_new_data flt (submitted sch)) ∧
    (Pipeline.run cfg_dup is_new_data (Pipeline.start flt) (sch ++ worker_turns clocks)).fifo
      = [] ∧
    (Pipeline.run cfg_dup is_new_data (Pipeline.start flt)
        (sch ++ worker_turns clocks)).worker.freed
      = accepted cfg_dup is_new_data flt (submitted sch) ∧
    (Pipeline.run cfg_dup is_new_data (Pipeline.start flt)
        (sch ++ worker_turns clocks)).worker.published.length
      = (accepted cfg_dup is_new_data flt (submitted sch)).length ∧
    (Pipeline.run cfg_dup is_new_data (Pipeline.start flt)
        (sch ++ worker_turns clocks)).worker.shadow.light
      = last_light 0 (accepted cfg_dup is_new_data flt (submitted sch)) ∧
    ((Pipeline.run true scripted_filter (Pipeline.start [true, true, false])
        scenario_submissions).fifo = [scenario_packet 10 1, scenario_packet 20 2] ∧
      (Pipeline.run true scripted_filter (Pipeline.start [true, true, false])
        (scenario_submissions ++ worker_turns [100, 200])).worker.published.length = 2 ∧
      (Pipeline.run true scripted_filter (Pipeline.start [true, true, false])
        (scenario_submissions ++ worker_turns [100, 200])).worker.shadow.light = 20 ∧
      (Pipeline.run true scripted_filter (Pipeline.start [true, true, false])
        [.submit (scenario_packet 10 1) (some error_packet) none, .work 100,
         .submit (scenario_packet 20 2) (some error_packet) none, .work 200,
         .submit (scenario_packet 20 2) (some error_packet) none, .work 300]).worker.published
        = [⟨100, 10⟩, ⟨200, 20⟩]) := by
  have h1 := run_fifo_order cfg_dup is_new_data sch (Pipeline.start flt) hok
  have hstart : (Pipeline.start flt).worker.freed ++ (Pipeline.start flt).fifo
      = ([] : List sensor_packet_t) := rfl
  rw [hstart, List.nil_append] at h1
  have hfifo : (Pipeline.run cfg_dup is_new_data (Pipeline.start flt)
      (sch ++ worker_turns clocks)).fifo = [] := by
    rw [run_append, worker_turns_fifo]
    exact List.drop_eq_nil_of_le hturns
  have h2 := run_fifo_order cfg_dup is_new_data (worker_turns clocks)
    (Pipeline.run cfg_dup is_new_data (Pipeline.start flt) sch) (worker_turns_plain clocks).1
  rw [← run_append, hfifo, (worker_turns_plain clocks).2, h1] at h2
  have hfreed : (Pipeline.run cfg_dup is_new_data (Pipeline.start flt)
      (sch ++ worker_turns clocks)).worker.freed
      = accepted cfg_dup is_new_data flt (submitted sch) := by
    simpa [accepted] using h2
  obtain ⟨ps, hp1, hp2, hp3⟩ :=
    run_worker cfg_dup is_new_data (sch ++ worker_turns clocks) (Pipeline.start flt)
  have hps : ps = accepted cfg_dup is_new_data flt (submitted sch) := by
    rw [hfreed] at hp1
    simpa [Pipeline.start, WorkerState.init] using hp1.symm
  subst hps
  refine ⟨h1, hfifo, hfreed, ?_, ?_, ?_⟩
  · simpa [Pipeline.start, WorkerState.init] using hp2
  · simpa [Pipeline.start, WorkerState.init] using hp3
  · decide

/-- Witness for C7: the end-to-end scenario with two worker turns. -/
theorem pipeline_accepted_published_witness :
    (Pipeline.run true scripted_filter (Pipeline.start [true, true, false])
        (scenario_submissions ++ worker_turns [100, 200])).worker.published.length
      = (accepted true scripted_filter [true, true, false]
          (submitted scenario_submissions)).length ∧
    (accepted true scripted_filter [true, true, false] (submitted scenario_submissions)).length
      = 2 :=
  ⟨(pipeline_accepted_published true scripted_filter [true, true, false] scenario_submissions
      [100, 200] (by decide) (by decide)).2.2.2.1, by decide⟩

end NrfDia5
